import Mathlib

/-!
Verification of the `syna` dual-process reasoning pipeline (src/syna.py).

Shallow embedding: Python floats are modelled as rationals (all constants in
the source — 0.7, 0.71, 0.1, 0.3, 0.6 — compare identically under float and
exact rational semantics at every point used here); Python lists of strings
become `List String`; dataclasses become structures; a raising call becomes
`Except`.

The source file is a skeleton: the classes `DivergentProcessor`,
`ConvergentProcessor`, `ModeSelector`, `ConflictResolver` and
`PatternIntegrator`, and the `CorpusCallosum` helper methods
`_merge_insights`, `_calculate_confidence`, `_combine_paths`,
`_calculate_resource_usage`, `_calculate_novelty`, are referenced but not
defined anywhere under src/. Where such a missing body decides a claim, its
definition below is modelled from the spec (doc comment `Modelled from the
spec:`), faithful to the spec's words; everything that does exist in
src/syna.py (the dataclass, `TaskOptimizer.optimize_processing`, the body of
`CorpusCallosum.integrate_results`, `BilateralProcessor.process_thought`,
`EnhancedSyna.process_input`) is translated from the source.
-/

namespace Syna

/-- The `ProcessingMode` enum from src/syna.py lines 6-9. -/
inductive ProcessingMode where
  | DIVERGENT
  | CONVERGENT
  | BILATERAL
deriving DecidableEq, Repr

/-- The `ProcessingResult` dataclass from src/syna.py lines 11-17. -/
structure ProcessingResult where
  insights : List String
  confidence : ℚ
  processing_path : List String
  resource_usage : ℚ
  novelty_score : ℚ
deriving DecidableEq, Repr

/-- Clamping to [0,1]: `clamp01 x = min 1 (max 0 x)`, the clamp to [0,1] used by the spec's
confidence and novelty formulas (§4.3 steps 4 and 7). -/
def clamp01 (x : ℚ) : ℚ := min 1 (max 0 x)

/-- The method `TaskOptimizer.optimize_processing` from src/syna.py lines 124-137,
translated branch for branch. -/
def optimize_processing (task : String) (complexity creativity_required analysis_required : ℚ) :
    ProcessingMode :=
  if creativity_required > 0.7 ∧ analysis_required > 0.7 then
    ProcessingMode.BILATERAL
  else if creativity_required > analysis_required then
    ProcessingMode.DIVERGENT
  else
    ProcessingMode.CONVERGENT

/-- A detected synergy (spec §4.3 step 1): a scalar `synergy_strength` in
[0,1] for a complementary pair of insights, plus any insights the synergy
synthesizes for the merge (§4.3 step 3). Modelled from the spec:
`PatternIntegrator` is referenced at src/syna.py line 52 but defined nowhere
in the source. -/
structure Synergy where
  strength : ℚ
  synthesized : List String
deriving DecidableEq, Repr

/-- A resolved conflict (spec §4.3 step 2): a `conflict_penalty` in [0,1] plus
the insights its resolution outcome drops from the merge. Modelled from the
spec: `ConflictResolver` is referenced at src/syna.py line 51 but defined
nowhere in the source. -/
structure Conflict where
  penalty : ℚ
  dropped : List String
deriving DecidableEq, Repr

/-- The class `CorpusCallosum` from src/syna.py lines 47-52: the configuration constant
`synergy_threshold = 0.6` plus the two pluggable collaborators
(`pattern_integrator.find_synergies`, `conflict_resolver.resolve`) as
function-valued fields, their classes being absent from the source. -/
structure CorpusCallosum where
  synergy_threshold : ℚ := 0.6
  find_synergies : ProcessingResult → ProcessingResult → List Synergy
  resolve : ProcessingResult → ProcessingResult → List Conflict

/-- Modelled from the spec: `total_synergy_bonus` of §4.3 step 4 — the sum of
synergy strengths scaled by the fixed weight 0.1, capped at +0.3 total. The
body computing it (`_calculate_confidence`) is missing from the source. -/
def total_synergy_bonus (synergies : List Synergy) : ℚ :=
  min 0.3 (0.1 * (synergies.map Synergy.strength).sum)

/-- Modelled from the spec: `total_conflict_penalty` of §4.3 step 4 — the sum
of conflict penalties scaled by 0.1, capped at 0.3 total. -/
def total_conflict_penalty (conflicts : List Conflict) : ℚ :=
  min 0.3 (0.1 * (conflicts.map Conflict.penalty).sum)

/-- Modelled from the spec: `CorpusCallosum._calculate_confidence` has no body
in the source (only its call at src/syna.py line 79); §4.3 step 4 defines it
as `clamp01(avg(d.confidence, c.confidence) + total_synergy_bonus -
total_conflict_penalty)`. The spec's formula needs both input confidences, so
the model passes them explicitly (the source call site passes only the
synergies and resolved conflicts). -/
def calculate_confidence (dconf cconf : ℚ) (synergies : List Synergy)
    (conflicts : List Conflict) : ℚ :=
  clamp01 ((dconf + cconf) / 2
    + total_synergy_bonus synergies - total_conflict_penalty conflicts)

/-- Modelled from the spec: `CorpusCallosum._merge_insights` has no body in
the source (only its call at src/syna.py line 71); §4.3 step 3 defines the
merge as divergent insights in original order, then convergent insights not
already present (value-equality de-duplication), then synthesized synergy
insights, minus any insight dropped by conflict resolution. -/
def merge_insights (div conv : List String) (synergies : List Synergy)
    (dropped : List String) : List String :=
  (div ++ conv.filter (fun x => decide (x ∉ div))
    ++ synergies.flatMap Synergy.synthesized).filter
      (fun x => decide (x ∉ dropped))

/-- Modelled from the spec: the integration marker appended by
`_combine_paths` (§4.3 step 5) — a synthetic descriptive step. -/
def integration_marker : String := "integration"

/-- Modelled from the spec: `CorpusCallosum._combine_paths` has no body in the
source (only its call at src/syna.py line 80); §4.3 step 5 defines it as the
divergent path, then the convergent path, then an integration marker. -/
def combine_paths (dp cp : List String) : List String :=
  dp ++ cp ++ [integration_marker]

/-- Modelled from the spec: the fixed integration overhead added to resource
usage (§4.3 step 6). -/
def integration_overhead : ℚ := 0.1

/-- Modelled from the spec: `CorpusCallosum._calculate_resource_usage` has no
body in the source (only its call at src/syna.py line 84); §4.3 step 6 defines
it as the sum of both usages plus a fixed overhead. -/
def calculate_resource_usage (du cu : ℚ) : ℚ :=
  du + cu + integration_overhead

/-- Modelled from the spec: the `synergy_novelty_bonus` of §4.3 step 7 —
nonnegative for synergy strengths in [0,1] and capped, so novelty never
decreases relative to the best single-mode result. -/
def synergy_novelty_bonus (synergies : List Synergy) : ℚ :=
  min 0.3 (0.1 * (synergies.map Synergy.strength).sum)

/-- Modelled from the spec: `CorpusCallosum._calculate_novelty` has no body in
the source (only its call at src/syna.py line 88); §4.3 step 7 defines it as
`clamp01(max(d.novelty, c.novelty) + synergy_novelty_bonus)`. -/
def calculate_novelty (dn cn : ℚ) (synergies : List Synergy) : ℚ :=
  clamp01 (max dn cn + synergy_novelty_bonus synergies)

/-- The method `CorpusCallosum.integrate_results` from src/syna.py lines 54-93,
translated statement for statement, the missing helper bodies modelled from
the spec as above. -/
def integrate_results (cc : CorpusCallosum)
    (divergent_result convergent_result : ProcessingResult) : ProcessingResult :=
  let synergies := cc.find_synergies divergent_result convergent_result
  let resolved_conflicts := cc.resolve divergent_result convergent_result
  { insights := merge_insights divergent_result.insights convergent_result.insights
      synergies (resolved_conflicts.flatMap Conflict.dropped)
    confidence := calculate_confidence divergent_result.confidence
      convergent_result.confidence synergies resolved_conflicts
    processing_path := combine_paths divergent_result.processing_path
      convergent_result.processing_path
    resource_usage := calculate_resource_usage divergent_result.resource_usage
      convergent_result.resource_usage
    novelty_score := calculate_novelty divergent_result.novelty_score
      convergent_result.novelty_score synergies }

/-- State-passing form of `integrate_results`: the source body (src/syna.py
lines 54-93) only reads fields of its two arguments and ends in a
`ProcessingResult(...)` constructor call — it contains no attribute
assignment to either argument — so its effect on the pair of input objects is
the identity, made explicit here by threading the pair through. -/
def integrate_results_st (cc : CorpusCallosum)
    (s : ProcessingResult × ProcessingResult) :
    (ProcessingResult × ProcessingResult) × ProcessingResult :=
  (s, integrate_results cc s.1 s.2)

/-- A `CorpusCallosum` whose pluggable collaborators detect nothing: the
"absence of synergy is the safe default" configuration of §4.3 step 1. -/
def ccEmpty : CorpusCallosum :=
  { synergy_threshold := 0.6
    find_synergies := fun _ _ => []
    resolve := fun _ _ => [] }

/-- Sample divergent-side result (the §8 scenario's d). -/
def sampleD : ProcessingResult :=
  { insights := ["A", "B"], confidence := 0.8, processing_path := ["d"]
    resource_usage := 1, novelty_score := 0.9 }

/-- Sample convergent-side result (the §8 scenario's c). -/
def sampleC : ProcessingResult :=
  { insights := ["B", "C"], confidence := 0.6, processing_path := ["c"]
    resource_usage := 1, novelty_score := 0.4 }

/-- The `StrategyFailure` of the spec's error taxonomy (§7): an exception
raised by one of the two strategy calls. -/
structure StrategyError where
  message : String
deriving DecidableEq, Repr

/-- The class `BilateralProcessor` from src/syna.py lines 19-25: the two strategy
processors (`DivergentProcessor`, `ConvergentProcessor` — absent from the
source, so pluggable fallible functions here), the corpus callosum, and the
configuration constant `integration_threshold = 0.7`. -/
structure BilateralProcessor where
  divergent : String → Except StrategyError ProcessingResult
  convergent : String → Except StrategyError ProcessingResult
  corpus_callosum : CorpusCallosum
  integration_threshold : ℚ := 0.7

/-- The method `BilateralProcessor.process_thought` from src/syna.py lines 27-45 over
fallible strategies: `asyncio.gather` with its default
`return_exceptions=False` re-raises the exception of a failed task instead of
delivering a result pair, so the unpacking `d_result, c_result = await
asyncio.gather(...)` and the `integrate_results` call below it run only when
both strategy tasks succeeded, and a strategy failure propagates to the
caller. -/
def process_thought (bp : BilateralProcessor) (input_data : String) :
    Except StrategyError ProcessingResult :=
  match bp.divergent input_data, bp.convergent input_data with
  | Except.error e, _ => Except.error e
  | Except.ok _, Except.error e => Except.error e
  | Except.ok d_result, Except.ok c_result =>
      Except.ok (integrate_results bp.corpus_callosum d_result c_result)

/-- Which of the two concurrently dispatched strategy tasks (src/syna.py
lines 30-35) the cooperative scheduler completes first. -/
inductive Completion where
  | divergentFirst
  | convergentFirst
deriving DecidableEq, Repr

/-- The expression `await asyncio.gather(divergent_task, convergent_task)` (src/syna.py line
38) under an explicit completion order: completed tasks are collected as
(argument index, value) pairs in completion order, and the returned pair is
reassembled positionally — index 0 first, index 1 second — which is the
documented `asyncio.gather` semantics (results in argument order, never in
completion order). -/
def gatherTwo (order : Completion) (dres cres : ProcessingResult) :
    Option (ProcessingResult × ProcessingResult) :=
  let completed : List (Nat × ProcessingResult) :=
    match order with
    | Completion.divergentFirst => [(0, dres), (1, cres)]
    | Completion.convergentFirst => [(1, cres), (0, dres)]
  match completed.lookup 0, completed.lookup 1 with
  | some d_result, some c_result => some (d_result, c_result)
  | _, _ => none

/-- The method `BilateralProcessor.process_thought` (src/syna.py lines 27-45) with the
scheduler's completion order made explicit, both strategy results being
available: gather the pair positionally, then integrate. -/
def process_thought_sched (order : Completion) (cc : CorpusCallosum)
    (dres cres : ProcessingResult) : Option ProcessingResult :=
  match gatherTwo order dres cres with
  | some (d_result, c_result) => some (integrate_results cc d_result c_result)
  | none => none

/-- The `TaskProfile` record (spec §3): `complexity`, `creativity_required`,
`analysis_required`, each in [0,1]. Modelled from the spec: it is produced by
`ModeSelector.analyze_task`, and `ModeSelector` is absent from the source. -/
structure TaskProfile where
  complexity : ℚ
  creativity_required : ℚ
  analysis_required : ℚ
deriving DecidableEq, Repr

/-- Modelled from the spec: `ModeSelector.select_mode` is absent from the
source; §4.1 gives its exact three-branch policy, which is the same policy as
`TaskOptimizer.optimize_processing` (src/syna.py lines 132-137). -/
def select_mode (profile : TaskProfile) : ProcessingMode :=
  if profile.creativity_required > 0.7 ∧ profile.analysis_required > 0.7 then
    ProcessingMode.BILATERAL
  else if profile.creativity_required > profile.analysis_required then
    ProcessingMode.DIVERGENT
  else
    ProcessingMode.CONVERGENT

/-- The class `EnhancedSyna` from src/syna.py lines 95-102, with the strategy
processors and `ModeSelector.analyze_task` — their classes absent from the
source — as pluggable function-valued fields. -/
structure EnhancedSyna where
  divergent : String → ProcessingResult
  convergent : String → ProcessingResult
  corpus_callosum : CorpusCallosum
  analyze_task : String → TaskProfile

/-- The method `EnhancedSyna.process_input` from src/syna.py lines 104-120: analyze the
input, select the optimal mode, then dispatch — `BILATERAL` to
`BilateralProcessor.process_thought` (lines 27-45), which awaits both
strategies on the same input and integrates; a single mode to the
corresponding strategy, whose result is returned unmodified. -/
def process_input (es : EnhancedSyna) (input_data : String) : ProcessingResult :=
  let task_profile := es.analyze_task input_data
  let optimal_mode := select_mode task_profile
  match optimal_mode with
  | ProcessingMode.BILATERAL =>
      integrate_results es.corpus_callosum (es.divergent input_data)
        (es.convergent input_data)
  | ProcessingMode.DIVERGENT => es.divergent input_data
  | ProcessingMode.CONVERGENT => es.convergent input_data

/-- The names bound at the top level of the module src/syna.py: the bindings of
its four import statements (lines 1-4) and the eight class statements. No
statement in the file binds `DivergentProcessor`, `ConvergentProcessor`,
`ModeSelector`, `ConflictResolver` or `PatternIntegrator`, and none of these
is a Python builtin. -/
def module_top_level_names : List String :=
  ["Enum", "auto", "dataclass", "asyncio", "List", "Dict", "Tuple", "Optional",
   "ProcessingMode", "ProcessingResult", "BilateralProcessor", "CorpusCallosum",
   "EnhancedSyna", "TaskOptimizer", "BilateralSynapse", "BilateralNetwork"]

/-- A Python `NameError`, carrying the unresolvable name. -/
structure NameErr where
  name : String
deriving DecidableEq, Repr

/-- Python name resolution for a global reference inside a method of this
module: the name resolves if the module binds it at top level, and otherwise
the reference raises `NameError` (the constructor bodies below bind no local
of these names first, and none is a builtin). -/
def resolve_global (n : String) : Except NameErr Unit :=
  if n ∈ module_top_level_names then Except.ok () else Except.error (NameErr.mk n)

/-- The constructor `CorpusCallosum.__init__` (src/syna.py lines 49-52) as the sequence of
global constructor references it evaluates, in source order. -/
def corpus_callosum_init : Except NameErr Unit := do
  resolve_global "ConflictResolver"
  resolve_global "PatternIntegrator"

/-- The constructor `BilateralProcessor.__init__` (src/syna.py lines 21-25) as the sequence of
global constructor references it evaluates, in source order;
`CorpusCallosum()` runs that class's `__init__` in turn. -/
def bilateral_processor_init : Except NameErr Unit := do
  resolve_global "DivergentProcessor"
  resolve_global "ConvergentProcessor"
  resolve_global "CorpusCallosum"
  corpus_callosum_init

/-- The constructor `EnhancedSyna.__init__` (src/syna.py lines 97-102) as the sequence of
global constructor references it evaluates, in source order;
`BilateralProcessor()` runs that class's `__init__` in turn. -/
def enhanced_syna_init : Except NameErr Unit := do
  resolve_global "DivergentProcessor"
  resolve_global "ConvergentProcessor"
  resolve_global "BilateralProcessor"
  bilateral_processor_init
  resolve_global "ModeSelector"

/-- The public entry point as reached from outside: construct `EnhancedSyna`
(its `__init__` must complete), then call `process_input`. The parameter `es`
stands for any semantics the missing collaborator classes might have been
given: the entry fails before it is consulted. -/
def entry_process_input (es : EnhancedSyna) (input_data : String) :
    Except NameErr ProcessingResult := do
  enhanced_syna_init
  pure (process_input es input_data)

/-- A bilateral processor whose divergent strategy fails, for exercising the
failure-propagation policy. -/
def bpFail : BilateralProcessor :=
  { divergent := fun _ => Except.error (StrategyError.mk "boom")
    convergent := fun _ => Except.ok sampleC
    corpus_callosum := ccEmpty }

/-- A concrete system whose analyzer always reports a profile selecting
bilateral mode and whose strategies return the sample results. -/
def esSample : EnhancedSyna :=
  { divergent := fun _ => sampleD
    convergent := fun _ => sampleC
    corpus_callosum := ccEmpty
    analyze_task := fun _ =>
      { complexity := 0.5, creativity_required := 0.8, analysis_required := 0.8 } }

end Syna

theorem Syna.clamp01_nonneg (x : ℚ) : 0 ≤ Syna.clamp01 x := by
  simp [Syna.clamp01]

theorem Syna.clamp01_le_one (x : ℚ) : Syna.clamp01 x ≤ 1 := by
  simp [Syna.clamp01]

/-- C1: mode selection is the exact three-branch policy of
`TaskOptimizer.optimize_processing`: `creativity_required > 0.7` and
`analysis_required > 0.7` gives `BILATERAL`; otherwise strict
`creativity_required > analysis_required` gives `DIVERGENT`; otherwise
(equality included) `CONVERGENT`; at `0.71, 0.71` the mode is `BILATERAL`
and at `0.7, 0.7` it is `CONVERGENT`. -/
theorem optimize_processing_policy (t : String) (x c a : ℚ) :
    (c > 0.7 ∧ a > 0.7 → Syna.optimize_processing t x c a = Syna.ProcessingMode.BILATERAL) ∧
    (¬(c > 0.7 ∧ a > 0.7) → c > a →
      Syna.optimize_processing t x c a = Syna.ProcessingMode.DIVERGENT) ∧
    (¬(c > 0.7 ∧ a > 0.7) → ¬(c > a) →
      Syna.optimize_processing t x c a = Syna.ProcessingMode.CONVERGENT) ∧
    Syna.optimize_processing "" 0 0.71 0.71 = Syna.ProcessingMode.BILATERAL ∧
    Syna.optimize_processing "" 0 0.7 0.7 = Syna.ProcessingMode.CONVERGENT := by
  refine ⟨?_, ?_, ?_, ?_, ?_⟩
  · intro h; simp [Syna.optimize_processing, h]
  · intro h hc; simp [Syna.optimize_processing, h, hc]
  · intro h hc; simp [Syna.optimize_processing, h, hc]
  · norm_num [Syna.optimize_processing]
  · norm_num [Syna.optimize_processing]

/-- C1 witness: the policy theorem applied at concrete boundary profiles. -/
theorem optimize_processing_policy_witness :
    Syna.optimize_processing "t" (1/2) (4/5) (4/5) = Syna.ProcessingMode.BILATERAL ∧
    Syna.optimize_processing "t" (1/2) (3/5) (2/5) = Syna.ProcessingMode.DIVERGENT ∧
    Syna.optimize_processing "t" (1/2) (2/5) (2/5) = Syna.ProcessingMode.CONVERGENT := by
  refine ⟨?_, ?_, ?_⟩
  · exact (optimize_processing_policy "t" (1/2) (4/5) (4/5)).1 (by norm_num)
  · exact (optimize_processing_policy "t" (1/2) (3/5) (2/5)).2.1 (by norm_num) (by norm_num)
  · exact (optimize_processing_policy "t" (1/2) (2/5) (2/5)).2.2.1 (by norm_num) (by norm_num)

/-- C2: integration is deterministic and side-effect-free — two calls of
`integrate_results` on the same pair return equal outputs, and the output
depends on nothing but the field values of the two inputs and the fixed
configuration: field-wise equal inputs give equal outputs. -/
theorem integrate_results_deterministic (cc : Syna.CorpusCallosum)
    (d c d' c' : Syna.ProcessingResult) :
    Syna.integrate_results cc d c = Syna.integrate_results cc d c ∧
    (d.insights = d'.insights → d.confidence = d'.confidence →
     d.processing_path = d'.processing_path → d.resource_usage = d'.resource_usage →
     d.novelty_score = d'.novelty_score →
     c.insights = c'.insights → c.confidence = c'.confidence →
     c.processing_path = c'.processing_path → c.resource_usage = c'.resource_usage →
     c.novelty_score = c'.novelty_score →
     Syna.integrate_results cc d c = Syna.integrate_results cc d' c') := by
  refine ⟨rfl, ?_⟩
  intro h1 h2 h3 h4 h5 h6 h7 h8 h9 h10
  have hd : d = d' := by cases d; cases d'; simp_all
  have hc : c = c' := by cases c; cases c'; simp_all
  rw [hd, hc]

/-- C2 witness: the determinism theorem applied at a concrete configuration
and pair. -/
theorem integrate_results_deterministic_witness :
    Syna.integrate_results Syna.ccEmpty Syna.sampleD Syna.sampleC =
      Syna.integrate_results Syna.ccEmpty Syna.sampleD Syna.sampleC :=
  (integrate_results_deterministic Syna.ccEmpty Syna.sampleD Syna.sampleC
      Syna.sampleD Syna.sampleC).2
    rfl rfl rfl rfl rfl rfl rfl rfl rfl rfl

/-- C3: the integrated confidence equals
`clamp01(avg(d.confidence, c.confidence) + total_synergy_bonus -
total_conflict_penalty)` where the bonus is the sum of synergy strengths
scaled by 0.1 and capped at 0.3 and the penalty is scaled and capped the same
way, and it always lies in [0, 1]. -/
theorem integrate_results_confidence (cc : Syna.CorpusCallosum)
    (d c : Syna.ProcessingResult) :
    (Syna.integrate_results cc d c).confidence =
      Syna.clamp01 ((d.confidence + c.confidence) / 2
        + min 0.3 (0.1 * ((cc.find_synergies d c).map Syna.Synergy.strength).sum)
        - min 0.3 (0.1 * ((cc.resolve d c).map Syna.Conflict.penalty).sum)) ∧
    0 ≤ (Syna.integrate_results cc d c).confidence ∧
    (Syna.integrate_results cc d c).confidence ≤ 1 :=
  ⟨rfl, Syna.clamp01_nonneg _, Syna.clamp01_le_one _⟩

/-- C4: the integrated novelty equals
`clamp01(max(d.novelty, c.novelty) + synergy_novelty_bonus)` and, whenever
both input novelty scores are at most 1 and every detected synergy strength
is nonnegative (the spec requires strengths in [0,1]), it is at least
`max(d.novelty_score, c.novelty_score)` and at most 1. -/
theorem integrate_results_novelty (cc : Syna.CorpusCallosum)
    (d c : Syna.ProcessingResult)
    (hd1 : d.novelty_score ≤ 1) (hc1 : c.novelty_score ≤ 1)
    (hs : ∀ s ∈ cc.find_synergies d c, 0 ≤ Syna.Synergy.strength s) :
    (Syna.integrate_results cc d c).novelty_score =
      Syna.clamp01 (max d.novelty_score c.novelty_score
        + Syna.synergy_novelty_bonus (cc.find_synergies d c)) ∧
    max d.novelty_score c.novelty_score ≤ (Syna.integrate_results cc d c).novelty_score ∧
    (Syna.integrate_results cc d c).novelty_score ≤ 1 := by
  have hsum : 0 ≤ ((cc.find_synergies d c).map Syna.Synergy.strength).sum := by
    refine List.sum_nonneg ?_
    intro x hx
    obtain ⟨s, hsmem, rfl⟩ := List.mem_map.mp hx
    exact hs s hsmem
  have hb : 0 ≤ Syna.synergy_novelty_bonus (cc.find_synergies d c) := by
    unfold Syna.synergy_novelty_bonus
    refine le_min (by norm_num) (by nlinarith)
  refine ⟨rfl, ?_, Syna.clamp01_le_one _⟩
  show max d.novelty_score c.novelty_score ≤
    Syna.clamp01 (max d.novelty_score c.novelty_score
      + Syna.synergy_novelty_bonus (cc.find_synergies d c))
  unfold Syna.clamp01
  refine le_min (max_le hd1 hc1) ?_
  refine le_trans ?_ (le_max_right 0 _)
  linarith

/-- C4 witness: the novelty theorem applied at a concrete configuration and
pair, with each hypothesis discharged by evaluation. -/
theorem integrate_results_novelty_witness :
    max Syna.sampleD.novelty_score Syna.sampleC.novelty_score ≤
      (Syna.integrate_results Syna.ccEmpty Syna.sampleD Syna.sampleC).novelty_score :=
  (integrate_results_novelty Syna.ccEmpty Syna.sampleD Syna.sampleC
      (by norm_num [Syna.sampleD]) (by norm_num [Syna.sampleC])
      (by simp [Syna.ccEmpty])).2.1

/-- C5: the integrated insights sequence is exactly the divergent insights in
their original order, followed by the convergent insights not already present
(value-equality de-duplication), followed by the synthesized synergy
insights, minus every insight dropped by conflict resolution; and an insight
present on the divergent side is never double-counted from the convergent
side: its multiplicity is bounded by its multiplicity among the divergent and
synthesized insights alone. -/
theorem integrate_results_insights (cc : Syna.CorpusCallosum)
    (d c : Syna.ProcessingResult) :
    (Syna.integrate_results cc d c).insights =
      (d.insights
        ++ c.insights.filter (fun x => decide (x ∉ d.insights))
        ++ (cc.find_synergies d c).flatMap Syna.Synergy.synthesized).filter
          (fun x => decide (x ∉ (cc.resolve d c).flatMap Syna.Conflict.dropped)) ∧
    ∀ x ∈ d.insights,
      ((Syna.integrate_results cc d c).insights).count x ≤
        d.insights.count x
          + ((cc.find_synergies d c).flatMap Syna.Synergy.synthesized).count x := by
  constructor
  · rfl
  · intro x hx
    have hfil : ((Syna.integrate_results cc d c).insights).count x ≤
        (d.insights
          ++ c.insights.filter (fun y => decide (y ∉ d.insights))
          ++ (cc.find_synergies d c).flatMap Syna.Synergy.synthesized).count x :=
      List.Sublist.count_le (List.filter_sublist _) x
    have hzero : (c.insights.filter (fun y => decide (y ∉ d.insights))).count x = 0 := by
      rw [List.count_eq_zero]
      intro hmem
      have := (List.mem_filter.mp hmem).2
      simp only [decide_eq_true_eq] at this
      exact this hx
    calc ((Syna.integrate_results cc d c).insights).count x
        ≤ (d.insights
            ++ c.insights.filter (fun y => decide (y ∉ d.insights))
            ++ (cc.find_synergies d c).flatMap Syna.Synergy.synthesized).count x := hfil
      _ = d.insights.count x
            + (c.insights.filter (fun y => decide (y ∉ d.insights))).count x
            + ((cc.find_synergies d c).flatMap Syna.Synergy.synthesized).count x := by
          rw [List.count_append, List.count_append]
      _ = d.insights.count x
            + ((cc.find_synergies d c).flatMap Syna.Synergy.synthesized).count x := by
          rw [hzero]; ring
      _ ≤ _ := le_refl _

/-- C5 witness: the merge theorem applied at a concrete pair, on the shared
insight "B" of the §8 scenario. -/
theorem integrate_results_insights_witness :
    ((Syna.integrate_results Syna.ccEmpty Syna.sampleD Syna.sampleC).insights).count "B" ≤
      Syna.sampleD.insights.count "B"
        + ((Syna.ccEmpty.find_synergies Syna.sampleD Syna.sampleC).flatMap
            Syna.Synergy.synthesized).count "B" :=
  (integrate_results_insights Syna.ccEmpty Syna.sampleD Syna.sampleC).2
    "B" (by simp [Syna.sampleD])

/-- C9: integration is a frame-preserving fresh construction — in the
state-passing rendering of the source body, both input results are unchanged
in every field after the call, and the returned value is the newly
constructed `ProcessingResult` of the computed fields, built by the
constructor rather than by updating either input. -/
theorem integrate_results_frame (cc : Syna.CorpusCallosum)
    (d c : Syna.ProcessingResult) :
    (Syna.integrate_results_st cc (d, c)).1.1 = d ∧
    (Syna.integrate_results_st cc (d, c)).1.2 = c ∧
    (Syna.integrate_results_st cc (d, c)).2 =
      Syna.ProcessingResult.mk
        (Syna.merge_insights d.insights c.insights (cc.find_synergies d c)
          ((cc.resolve d c).flatMap Syna.Conflict.dropped))
        (Syna.calculate_confidence d.confidence c.confidence
          (cc.find_synergies d c) (cc.resolve d c))
        (Syna.combine_paths d.processing_path c.processing_path)
        (Syna.calculate_resource_usage d.resource_usage c.resource_usage)
        (Syna.calculate_novelty d.novelty_score c.novelty_score
          (cc.find_synergies d c)) :=
  ⟨rfl, rfl, rfl⟩

/-- C6: the orchestrator never integrates a partial pair — if either strategy
call fails, `process_thought` propagates a failure to its caller, and any
successful return is the integration of two successful strategy results. -/
theorem process_thought_never_partial_pair (bp : Syna.BilateralProcessor) (input_data : String) :
    ((∃ e, bp.divergent input_data = Except.error e) ∨
      (∃ e, bp.convergent input_data = Except.error e) →
      ∃ e, Syna.process_thought bp input_data = Except.error e) ∧
    (∀ r, Syna.process_thought bp input_data = Except.ok r →
      ∃ d_result c_result,
        bp.divergent input_data = Except.ok d_result ∧
        bp.convergent input_data = Except.ok c_result ∧
        r = Syna.integrate_results bp.corpus_callosum d_result c_result) := by
  rcases hd : bp.divergent input_data with ed | d <;>
    rcases hc : bp.convergent input_data with ec | c <;>
    constructor
  · intro _; exact ⟨ed, by simp [Syna.process_thought, hd, hc]⟩
  · intro r hr; simp [Syna.process_thought, hd, hc] at hr
  · intro _; exact ⟨ed, by simp [Syna.process_thought, hd, hc]⟩
  · intro r hr; simp [Syna.process_thought, hd, hc] at hr
  · intro _; exact ⟨ec, by simp [Syna.process_thought, hd, hc]⟩
  · intro r hr; simp [Syna.process_thought, hd, hc] at hr
  · intro h
    exfalso
    rcases h with ⟨e, he⟩ | ⟨e, he⟩
    · exact Except.noConfusion he
    · exact Except.noConfusion he
  · intro r hr
    refine ⟨d, c, rfl, rfl, ?_⟩
    simp [Syna.process_thought, hd, hc] at hr
    exact hr.symm

/-- C6 witness: the no-partial-integration theorem applied to a processor
whose divergent strategy fails. -/
theorem process_thought_never_partial_pair_witness :
    ∃ e, Syna.process_thought Syna.bpFail "x" = Except.error e :=
  (process_thought_never_partial_pair Syna.bpFail "x").1
    (Or.inl ⟨Syna.StrategyError.mk "boom", rfl⟩)

/-- C7: completion order never affects the result — under any scheduling of
the two concurrent strategy tasks, `asyncio.gather` delivers the pair in
argument order, so the orchestrator integrates the divergent result as
`divergent_result` and the convergent result as `convergent_result` and the
integrated output is identical; in particular, when the convergent task
finishes first the output is still the integration of the pair in divergent,
convergent order. -/
theorem process_thought_sched_order_independent (cc : Syna.CorpusCallosum)
    (dres cres : Syna.ProcessingResult) :
    (∀ o₁ o₂ : Syna.Completion,
      Syna.process_thought_sched o₁ cc dres cres =
        Syna.process_thought_sched o₂ cc dres cres) ∧
    Syna.process_thought_sched Syna.Completion.convergentFirst cc dres cres =
      some (Syna.integrate_results cc dres cres) := by
  constructor
  · intro o₁ o₂; cases o₁ <;> cases o₂ <;> rfl
  · rfl

/-- C8: whenever both strategies' results satisfy the `ProcessingResult`
interface contract (non-empty processing path, confidence in [0,1]), the
result `process_input` returns — in divergent-only, convergent-only or
bilateral mode — has a non-empty `processing_path` and a confidence in
[0,1]; and in the bilateral branch the `processing_path` is the divergent
path, then the convergent path, then the integration marker. -/
theorem process_input_invariant (es : Syna.EnhancedSyna) (input_data : String)
    (hdp : (es.divergent input_data).processing_path ≠ [])
    (hcp : (es.convergent input_data).processing_path ≠ [])
    (hd0 : 0 ≤ (es.divergent input_data).confidence)
    (hd1 : (es.divergent input_data).confidence ≤ 1)
    (hc0 : 0 ≤ (es.convergent input_data).confidence)
    (hc1 : (es.convergent input_data).confidence ≤ 1) :
    (Syna.process_input es input_data).processing_path ≠ [] ∧
    0 ≤ (Syna.process_input es input_data).confidence ∧
    (Syna.process_input es input_data).confidence ≤ 1 ∧
    (Syna.select_mode (es.analyze_task input_data) = Syna.ProcessingMode.BILATERAL →
      (Syna.process_input es input_data).processing_path =
        (es.divergent input_data).processing_path
          ++ (es.convergent input_data).processing_path
          ++ [Syna.integration_marker]) := by
  cases hm : Syna.select_mode (es.analyze_task input_data) with
  | DIVERGENT =>
    refine ⟨?_, ?_, ?_, ?_⟩
    · simpa [Syna.process_input, hm] using hdp
    · simpa [Syna.process_input, hm] using hd0
    · simpa [Syna.process_input, hm] using hd1
    · intro h; exact Syna.ProcessingMode.noConfusion h
  | CONVERGENT =>
    refine ⟨?_, ?_, ?_, ?_⟩
    · simpa [Syna.process_input, hm] using hcp
    · simpa [Syna.process_input, hm] using hc0
    · simpa [Syna.process_input, hm] using hc1
    · intro h; exact Syna.ProcessingMode.noConfusion h
  | BILATERAL =>
    refine ⟨?_, ?_, ?_, ?_⟩
    · simp [Syna.process_input, hm, Syna.integrate_results, Syna.combine_paths]
    · simpa [Syna.process_input, hm, Syna.integrate_results] using
        Syna.clamp01_nonneg ((((es.divergent input_data).confidence
          + (es.convergent input_data).confidence) / 2
          + Syna.total_synergy_bonus
              (es.corpus_callosum.find_synergies (es.divergent input_data)
                (es.convergent input_data))
          - Syna.total_conflict_penalty
              (es.corpus_callosum.resolve (es.divergent input_data)
                (es.convergent input_data))))
    · simpa [Syna.process_input, hm, Syna.integrate_results] using
        Syna.clamp01_le_one ((((es.divergent input_data).confidence
          + (es.convergent input_data).confidence) / 2
          + Syna.total_synergy_bonus
              (es.corpus_callosum.find_synergies (es.divergent input_data)
                (es.convergent input_data))
          - Syna.total_conflict_penalty
              (es.corpus_callosum.resolve (es.divergent input_data)
                (es.convergent input_data))))
    · intro _
      simp [Syna.process_input, hm, Syna.integrate_results, Syna.combine_paths]

/-- C8 witness: the invariant theorem applied to a concrete system in
bilateral mode, with each contract hypothesis discharged by evaluation. -/
theorem process_input_invariant_witness :
    (Syna.process_input Syna.esSample "x").processing_path ≠ [] ∧
    0 ≤ (Syna.process_input Syna.esSample "x").confidence ∧
    (Syna.process_input Syna.esSample "x").confidence ≤ 1 ∧
    (Syna.select_mode (Syna.esSample.analyze_task "x") = Syna.ProcessingMode.BILATERAL →
      (Syna.process_input Syna.esSample "x").processing_path =
        (Syna.esSample.divergent "x").processing_path
          ++ (Syna.esSample.convergent "x").processing_path
          ++ [Syna.integration_marker]) :=
  process_input_invariant Syna.esSample "x"
    (by simp [Syna.esSample, Syna.sampleD])
    (by simp [Syna.esSample, Syna.sampleC])
    (by norm_num [Syna.esSample, Syna.sampleD])
    (by norm_num [Syna.esSample, Syna.sampleD])
    (by norm_num [Syna.esSample, Syna.sampleC])
    (by norm_num [Syna.esSample, Syna.sampleC])

/-- C10: the public entry point can never produce a `ProcessingResult` — the
names `DivergentProcessor`, `ConvergentProcessor`, `ModeSelector`,
`ConflictResolver` and `PatternIntegrator` are bound nowhere at the module's
top level, so `EnhancedSyna.__init__` raises `NameError` at its first such
reference (and `BilateralProcessor.__init__` and `CorpusCallosum.__init__`
likewise raise on their own), and every call of `process_input` through the
entry point — whatever semantics the missing collaborators would have had —
fails with `NameError` on `DivergentProcessor` before any mode selection,
dispatch or integration step executes. -/
theorem entry_always_name_error (es : Syna.EnhancedSyna) (input_data : String) :
    "DivergentProcessor" ∉ Syna.module_top_level_names ∧
    "ConvergentProcessor" ∉ Syna.module_top_level_names ∧
    "ModeSelector" ∉ Syna.module_top_level_names ∧
    "ConflictResolver" ∉ Syna.module_top_level_names ∧
    "PatternIntegrator" ∉ Syna.module_top_level_names ∧
    Syna.enhanced_syna_init = Except.error (Syna.NameErr.mk "DivergentProcessor") ∧
    Syna.bilateral_processor_init = Except.error (Syna.NameErr.mk "DivergentProcessor") ∧
    Syna.corpus_callosum_init = Except.error (Syna.NameErr.mk "ConflictResolver") ∧
    Syna.entry_process_input es input_data =
      Except.error (Syna.NameErr.mk "DivergentProcessor") :=
  ⟨by decide, by decide, by decide, by decide, by decide, rfl, rfl, rfl, rfl⟩
